import Mathlib

/-!
Verification of the DeArrowBrowser frontend data-view pipeline
(src/dearrow-browser-frontend/src/main.rs).

The definitions below are a shallow embedding of the Rust source. Pure
rendering helpers (`title_score`, `thumbnail_score`, `original_indicator`,
`video_link`, `user_link`, the table row builders, the page URL resolvers
and the header search callbacks) are translated directly from `main.rs`.
External library behaviour that the source calls into is embedded at the
level the source observes it: `chrono::NaiveDateTime::from_timestamp_millis`
and `format` with `TIME_FORMAT` are embedded as proleptic-Gregorian civil
date arithmetic with the chrono year range, `reqwest::Url::join` is embedded
for absolute-path references against an origin URL, and `reqwest::get` /
`Response::json` as a transport/parse outcome model. The suspending fetch
hook (`hooks::use_async_suspension`) is not part of the provided sources;
it is modelled from the spec where noted.
-/

/-- Route enum from main.rs lines 16-27: Home at /, Video at /video_id/:id,
User at /user_id/:id, NotFound at /404. -/
inductive Route where
  | Home : Route
  | Video (id : String) : Route
  | User (id : String) : Route
  | NotFound : Route
deriving DecidableEq, Repr

/-- DetailType enum from main.rs lines 29-33. -/
inductive DetailType where
  | Title : DetailType
  | Thumbnail : DetailType
deriving DecidableEq, Repr

/-- Embeds reqwest::Url as used by this program: an origin part
(scheme plus authority, taken from window.location.origin) and a path.
All joins performed by the program use absolute-path references, for which
Url::join keeps the origin and replaces the path. -/
structure Url where
  base : String
  path : String
deriving DecidableEq, Repr

/-- Url::join for an absolute-path reference: the origin is kept and the
path is replaced. Every join in main.rs passes a string starting with
a slash, so this is the only case the program exercises. -/
def urlJoin (u : Url) (p : String) : Url :=
  { base := u.base, path := p }

/-- ApiTitle record shape as consumed by main.rs (dearrow_browser_api):
uuid, video_id, user_id, title strings; time_submitted in epoch
milliseconds; signed score and votes; original, unverified, locked,
shadow_hidden flags. -/
structure ApiTitle where
  uuid : String
  video_id : String
  user_id : String
  title : String
  time_submitted : Int
  score : Int
  votes : Int
  original : Bool
  unverified : Bool
  locked : Bool
  shadow_hidden : Bool
deriving DecidableEq, Repr

/-- ApiThumbnail record shape as consumed by main.rs: uuid, video_id,
user_id strings; time_submitted in epoch milliseconds; an optional
timestamp in seconds (an f64 in the source, embedded as a rational since
every f64 value is a dyadic rational); signed votes; original, locked,
shadow_hidden flags. -/
structure ApiThumbnail where
  uuid : String
  video_id : String
  user_id : String
  time_submitted : Int
  timestamp : Option Rat
  votes : Int
  original : Bool
  locked : Bool
  shadow_hidden : Bool
deriving DecidableEq, Repr

/-- StatusResponse as consumed by main.rs: only the last_updated field
(epoch milliseconds) is read. -/
structure StatusResponse where
  last_updated : Int
deriving DecidableEq, Repr

/-- AppContext from main.rs lines 41-44: the freshness timestamp shared
with every view, or none before the first successful status poll. -/
structure AppContext where
  last_updated : Option Int
deriving DecidableEq, Repr

/-- Derivation of AppContext from the status fetch state, main.rs lines
76-78: the memo depends only on status.data mapped to last_updated, so the
error field of the async state never reaches the context. -/
def app_context_of (data : Option StatusResponse) : AppContext :=
  { last_updated := data.map (fun d => d.last_updated) }

/-! ### Date rendering

main.rs renders `time_submitted` via
`NaiveDateTime::from_timestamp_millis(t).map_or(t.to_string(), |dt| dt.format(TIME_FORMAT))`
with `TIME_FORMAT = "%Y-%m-%d %H:%M:%S"` (line 14). The chrono calls are
embedded below: Euclidean division splits milliseconds into days and
second-of-day, a civil-from-days computation recovers the proleptic
Gregorian date (chrono internal cycle tables compute the same calendar),
and the chrono year range -262144..=262143 decides in-range. -/

/-- TIME_FORMAT constant from main.rs line 14. -/
def TIME_FORMAT : String := "%Y-%m-%d %H:%M:%S"

/-- Civil date from days since the Unix epoch (proleptic Gregorian),
the calendar computed by chrono NaiveDate. Returns (year, month, day). -/
def civil_from_days (days : Int) : Int × Nat × Nat :=
  let z := days + 719468
  let era := z.ediv 146097
  let doe := (z - era * 146097).toNat
  let yoe := (doe - doe / 1460 + doe / 36524 - doe / 146096) / 365
  let y := (yoe : Int) + era * 400
  let doy := doe - (365 * yoe + yoe / 4 - yoe / 100)
  let mp := (5 * doy + 2) / 153
  let d := doy - (153 * mp + 2) / 5 + 1
  let m := if mp < 10 then mp + 3 else mp - 9
  (if m ≤ 2 then y + 1 else y, m, d)

/-- Civil date-time: year, month, day, hour, minute, second. -/
structure NaiveDT where
  year : Int
  month : Nat
  day : Nat
  hour : Nat
  minute : Nat
  second : Nat
deriving DecidableEq, Repr

/-- chrono MAX_YEAR: the largest year a NaiveDate can hold. -/
def chronoMaxYear : Int := 262143

/-- chrono MIN_YEAR: the smallest year a NaiveDate can hold. -/
def chronoMinYear : Int := -262144

/-- Embeds chrono NaiveDateTime::from_timestamp_millis: milliseconds are
split with Euclidean division into seconds, then days and second-of-day;
the civil date is computed and the result is none exactly when the year
falls outside the chrono range. -/
def from_timestamp_millis (ms : Int) : Option NaiveDT :=
  let secs := ms.ediv 1000
  let days := secs.ediv 86400
  let sod := (secs.emod 86400).toNat
  let c := civil_from_days days
  if c.1 < chronoMinYear ∨ chronoMaxYear < c.1 then none
  else some ⟨c.1, c.2.1, c.2.2, sod / 3600, sod % 3600 / 60, sod % 60⟩

/-- Left-pads a digit string with zeros to a minimum width. -/
def padZeros (w : Nat) (s : String) : String :=
  if s.length < w then String.mk (List.replicate (w - s.length) '0') ++ s else s

/-- chrono %Y: years 0..=9999 are zero-padded to four digits; years
outside that range carry an explicit sign before the four-digit-padded
absolute value. -/
def formatYear (y : Int) : String :=
  if 0 ≤ y ∧ y < 10000 then padZeros 4 (toString y.toNat)
  else (if y < 0 then "-" else "+") ++ padZeros 4 (toString y.natAbs)

/-- Two-digit zero padding for %m %d %H %M %S. -/
def pad2 (n : Nat) : String := padZeros 2 (toString n)

/-- Embeds chrono format with TIME_FORMAT, that is %Y-%m-%d %H:%M:%S. -/
def formatDT (dt : NaiveDT) : String :=
  formatYear dt.year ++ "-" ++ pad2 dt.month ++ "-" ++ pad2 dt.day ++ " "
    ++ pad2 dt.hour ++ ":" ++ pad2 dt.minute ++ ":" ++ pad2 dt.second

/-- The submitted cell contents, main.rs lines 372 and 403: the record
field time_submitted converted with from_timestamp_millis, formatted with
TIME_FORMAT when the conversion succeeds, with map_or falling back to the
to_string rendering of the raw value when it fails. -/
def submitted_cell (ms : Int) : String :=
  match from_timestamp_millis ms with
  | some dt => formatDT dt
  | none => toString ms

example : submitted_cell 1700000000000 = "2023-11-14 22:13:20" := by decide

/-! ### Numeric display of the optional thumbnail timestamp

The source renders the f64 timestamp with to_string, the shortest decimal
that round-trips. Every f64 value is a dyadic rational; on values whose
exact decimal expansion is short (whole or half seconds and the like,
in particular 0, which prints as "0") the shortest round-tripping decimal
is the exact expansion, computed here. -/

/-- Fuel-driven count of factors 2; fuel n suffices for input n. -/
def twoAdicValAux : Nat → Nat → Nat
  | 0, _ => 0
  | fuel + 1, n =>
    if n % 2 = 0 ∧ n ≠ 0 then twoAdicValAux fuel (n / 2) + 1 else 0

/-- Number of factors 2 in a natural number (0 for 0). -/
def twoAdicVal (n : Nat) : Nat := twoAdicValAux n n

/-- Left-pads a digit list with zeros to a minimum width. -/
def padZeroList (w : Nat) (l : List Char) : List Char :=
  List.replicate (w - l.length) '0' ++ l

/-- Drops trailing zero digits from a fraction digit list. -/
def dropTrailingZeros (l : List Char) : List Char :=
  (l.reverse.dropWhile (fun c => c = '0')).reverse

/-- Embeds Rust f64 to_string on dyadic rationals with short decimal
expansions: scale the numerator so the denominator becomes a power of ten,
place the decimal point, and strip trailing fraction zeros, omitting the
point entirely for whole values. -/
def dyadicDecimalString (q : Rat) : String :=
  let k := twoAdicVal q.den
  if q.den = 2 ^ k then
    let ds := padZeroList (k + 1) (toString (q.num.natAbs * 5 ^ k)).data
    let ip := ds.take (ds.length - k)
    let fp := dropTrailingZeros (ds.drop (ds.length - k))
    (if q.num < 0 then "-" else "") ++ String.mk ip
      ++ (if fp.isEmpty then "" else "." ++ String.mk fp)
  else toString q

example : dyadicDecimalString 0 = "0" := by decide
example : dyadicDecimalString (Rat.mk' 47 2 (by decide) (by decide)) = "23.5" := by decide

/-! ### Html fragments

Rendered cells are embedded as lists of nodes: plain text, a tooltip badge
(a span with a title attribute and its text content), an external anchor,
or an internal route link (the icon-link wrapper around the yew Link is
flattened to the navigation target and its label). -/

/-- A rendered Html node as produced by the row builders in main.rs. -/
inductive HtmlNode where
  | text (s : String) : HtmlNode
  | span (title : String) (content : String) : HtmlNode
  | anchor (href : String) (content : String) : HtmlNode
  | routeLink (target : Route) (content : String) : HtmlNode
deriving DecidableEq, Repr

/-- title_score from main.rs lines 264-282: the raw score value followed
by the too-low badge when score < 0, the unverified badge when unverified,
the locked badge when locked and the shadowhidden badge when
shadow_hidden. -/
def title_score (t : ApiTitle) : List HtmlNode :=
  [HtmlNode.text (toString t.score)]
  ++ (if t.score < 0 then
        [HtmlNode.span "This title\x27s score is too low to be displayed" "❌"] else [])
  ++ (if t.unverified then
        [HtmlNode.span "This title was submitted by an unverified user" "❓"] else [])
  ++ (if t.locked then
        [HtmlNode.span "This title was locked by a VIP" "🔒"] else [])
  ++ (if t.shadow_hidden then
        [HtmlNode.span "This title is shadowhidden" "🚫"] else [])

/-- thumbnail_score from main.rs lines 284-299: the raw votes value
followed by the too-low badge when votes < 0, the locked badge when locked
and the shadowhidden badge when shadow_hidden. -/
def thumbnail_score (t : ApiThumbnail) : List HtmlNode :=
  [HtmlNode.text (toString t.votes)]
  ++ (if t.votes < 0 then
        [HtmlNode.span "This thumbnail\x27s score is too low to be displayed" "❌"] else [])
  ++ (if t.locked then
        [HtmlNode.span "This thumbnail was locked by a VIP" "🔒"] else [])
  ++ (if t.shadow_hidden then
        [HtmlNode.span "This thumbnail is shadowhidden" "🚫"] else [])

/-- original_indicator from main.rs lines 301-311: the recycle badge when
original is true, nothing otherwise; detail_name is the stringified macro
argument, title or thumbnail. -/
def original_indicator (original : Bool) (detail_name : String) : List HtmlNode :=
  if original then
    [HtmlNode.span ("This is the original video " ++ detail_name) "♻️"] else []

/-- video_link from main.rs lines 313-325: a YouTube anchor showing the
video id, a space, and an internal link to the Video route. -/
def video_link (videoid : String) : List HtmlNode :=
  [HtmlNode.anchor ("https://youtu.be/" ++ videoid) videoid,
   HtmlNode.text " ",
   HtmlNode.routeLink (Route.Video videoid) "🔍"]

/-- user_link from main.rs lines 327-338: the user id text, a space, and
an internal link to the User route. -/
def user_link (userid : String) : List HtmlNode :=
  [HtmlNode.text userid,
   HtmlNode.text " ",
   HtmlNode.routeLink (Route.User userid) "🔍"]

/-- The timestamp cell of a thumbnail row, main.rs line 407: the numeric
timestamp when present, the original indicator otherwise. -/
def thumbnail_timestamp_cell (t : ApiThumbnail) : List HtmlNode :=
  match t.timestamp with
  | some ts => [HtmlNode.text (dyadicDecimalString ts)]
  | none => original_indicator t.original "thumbnail"

/-- A title table row, main.rs lines 370-384: submitted cell, optional
video id cell, title with original indicator, score cell, votes, uuid,
optional user id cell; a cell is a list of nodes and a row a list of
cells. -/
def title_row (hide_videoid hide_userid : Option Unit) (t : ApiTitle) :
    List (List HtmlNode) :=
  [[HtmlNode.text (submitted_cell t.time_submitted)]]
  ++ (if hide_videoid.isNone then [video_link t.video_id] else [])
  ++ [[HtmlNode.text t.title] ++ original_indicator t.original "title"]
  ++ [title_score t]
  ++ [[HtmlNode.text (toString t.votes)]]
  ++ [[HtmlNode.text t.uuid]]
  ++ (if hide_userid.isNone then [user_link t.user_id] else [])

/-- A thumbnail table row, main.rs lines 401-414: submitted cell, optional
video id cell, timestamp cell, score cell, uuid, optional user id cell. -/
def thumbnail_row (hide_videoid hide_userid : Option Unit) (t : ApiThumbnail) :
    List (List HtmlNode) :=
  [[HtmlNode.text (submitted_cell t.time_submitted)]]
  ++ (if hide_videoid.isNone then [video_link t.video_id] else [])
  ++ [thumbnail_timestamp_cell t]
  ++ [thumbnail_score t]
  ++ [[HtmlNode.text t.uuid]]
  ++ (if hide_userid.isNone then [user_link t.user_id] else [])

/-- DetailList enum from main.rs lines 259-262. -/
inductive DetailList where
  | Thumbnails (l : List ApiThumbnail) : DetailList
  | Titles (l : List ApiTitle) : DetailList
deriving DecidableEq, Repr

/-- A response body, carrying the serde decode outcome of the body at
each of the two element types the program requests; a body such as an
empty JSON array decodes successfully at both. -/
structure ResponseBody where
  asTitles : Option (List ApiTitle)
  asThumbnails : Option (List ApiThumbnail)
deriving DecidableEq, Repr

/-- Outcome of reqwest::get as the source observes it: a transport error,
or a response with an HTTP status code and a body. reqwest::get does not
turn an HTTP error status into an Err; the status is a field of the
response. -/
inductive ReqwestResult where
  | transportError : ReqwestResult
  | response (status : Nat) (body : ResponseBody) : ReqwestResult
deriving DecidableEq, Repr

/-- The fetch closure of DetailTableRenderer, main.rs lines 343-349: a
transport error propagates via the question mark; otherwise the body is
decoded at the element type selected by mode and a decode failure
propagates via the question mark. The status field of the response is
never examined by the closure. -/
def fetch_details (mode : DetailType) (resp : ReqwestResult) :
    Except Unit DetailList :=
  match resp with
  | .transportError => .error ()
  | .response _ body =>
    match mode with
    | .Thumbnail =>
      match body.asThumbnails with
      | some l => .ok (DetailList.Thumbnails l)
      | none => .error ()
    | .Title =>
      match body.asTitles with
      | some l => .ok (DetailList.Titles l)
      | none => .error ()

/-- The rendered view of DetailTableRenderer, main.rs lines 351-417:
the fixed error message on a failed fetch, otherwise a table of one row
per record in input order. -/
inductive RenderedView where
  | errorMsg (s : String) : RenderedView
  | titlesTable (rows : List (List (List HtmlNode))) : RenderedView
  | thumbnailsTable (rows : List (List (List HtmlNode))) : RenderedView
deriving DecidableEq, Repr

/-- Rendering match of DetailTableRenderer, main.rs lines 351-417. -/
def render_details (res : Except Unit DetailList)
    (hide_videoid hide_userid : Option Unit) : RenderedView :=
  match res with
  | .error _ => .errorMsg "Failed to fetch details from the API :/"
  | .ok (.Titles l) => .titlesTable (l.map (title_row hide_videoid hide_userid))
  | .ok (.Thumbnails l) =>
    .thumbnailsTable (l.map (thumbnail_row hide_videoid hide_userid))

/-! ### Pages and the scope resolver -/

/-- What a page passes to DetailTableRenderer: the resolved request URL
and the two column-hiding props (a prop is some () exactly when the page
sets it). -/
structure PageView where
  url : Url
  hide_videoid : Option Unit
  hide_userid : Option Unit
deriving DecidableEq, Repr

/-- HomePage from main.rs lines 420-442: joins /api/titles or
/api/thumbnails onto the origin by mode and hides neither column. -/
def HomePage (origin : Url) (table_mode : DetailType) : PageView :=
  { url :=
      match table_mode with
      | .Title => urlJoin origin "/api/titles"
      | .Thumbnail => urlJoin origin "/api/thumbnails"
    hide_videoid := none
    hide_userid := none }

/-- VideoPage from main.rs lines 449-471: joins the video-scoped path by
mode and passes hide_videoid. -/
def VideoPage (origin : Url) (videoid : String) (table_mode : DetailType) :
    PageView :=
  { url :=
      match table_mode with
      | .Title => urlJoin origin ("/api/titles/video_id/" ++ videoid)
      | .Thumbnail => urlJoin origin ("/api/thumbnails/video_id/" ++ videoid)
    hide_videoid := some ()
    hide_userid := none }

/-- UserPage from main.rs lines 478-500: joins the user-scoped path by
mode and passes hide_userid. -/
def UserPage (origin : Url) (userid : String) (table_mode : DetailType) :
    PageView :=
  { url :=
      match table_mode with
      | .Title => urlJoin origin ("/api/titles/user_id/" ++ userid)
      | .Thumbnail => urlJoin origin ("/api/thumbnails/user_id/" ++ userid)
    hide_videoid := none
    hide_userid := some () }

/-- RouteScope from the spec data model: Global, ByVideo or ByUser, the
filter under which records are browsed. -/
inductive RouteScope where
  | Global : RouteScope
  | ByVideo (id : String) : RouteScope
  | ByUser (id : String) : RouteScope
deriving DecidableEq, Repr

/-- Scope resolution: the page component mounted for each scope, per
render_route in main.rs lines 197-220 (Home for the root route, VideoPage
for a video route, UserPage for a user route). -/
def resolve_scope (origin : Url) (scope : RouteScope) (mode : DetailType) :
    PageView :=
  match scope with
  | .Global => HomePage origin mode
  | .ByVideo id => VideoPage origin id mode
  | .ByUser id => UserPage origin id mode

/-! ### Header search callbacks -/

/-- A keyboard event as the header callbacks observe it: the pressed key
and the value of the target input element. -/
structure KeyEvent where
  key : String
  value : String
deriving DecidableEq, Repr

/-- uuid_search from main.rs lines 114-123: on Enter the searchbar is
hidden and the navigator pushes NotFound; the input value is not read.
Returns the new searchbar visibility and the pushed route, if any. -/
def uuid_search (e : KeyEvent) (searchbar_visible : Bool) :
    Bool × Option Route :=
  if e.key = "Enter" then (false, some Route.NotFound)
  else (searchbar_visible, none)

/-- uid_search from main.rs lines 124-134: on Enter the searchbar is
hidden and the navigator pushes User with the input value. -/
def uid_search (e : KeyEvent) (searchbar_visible : Bool) :
    Bool × Option Route :=
  if e.key = "Enter" then (false, some (Route.User e.value))
  else (searchbar_visible, none)

/-- vid_search from main.rs lines 135-145: on Enter the searchbar is
hidden and the navigator pushes Video with the input value. -/
def vid_search (e : KeyEvent) (searchbar_visible : Bool) :
    Bool × Option Route :=
  if e.key = "Enter" then (false, some (Route.Video e.value))
  else (searchbar_visible, none)

/-! ### The suspending fetcher

The hook hooks::use_async_suspension that DetailTableRenderer calls
(main.rs lines 343-349) is declared in the hooks module, which is not
among the provided sources. Its contract is modelled from the spec: one
fetch per distinct fetch key, and a response is accepted at arrival time
only if its key equals the currently observed key, otherwise it is
discarded. -/

/-- The fetch key, the dependency tuple of use_async_suspension at
main.rs line 349: (props.mode, props.url, app_context.last_updated). -/
abbrev FetchKey := DetailType × Url × Option Int

/-- The result slot of the fetcher: pending, or a completed outcome
tagged with the key its fetch was issued for. -/
inductive FetchResult (O : Type) where
  | pending : FetchResult O
  | done (key : FetchKey) (outcome : O) : FetchResult O
deriving DecidableEq, Repr

/-- Fetcher state: the most recently observed key, if any, and the
current result slot. -/
structure FetcherState (O : Type) where
  key : Option FetchKey
  result : FetchResult O
deriving DecidableEq, Repr

/-- An event the fetcher reacts to: a render observing a key, or a
network response arriving for the key its fetch was issued for. -/
inductive FetchEvent (O : Type) where
  | observe (k : FetchKey) : FetchEvent O
  | arrive (k : FetchKey) (outcome : O) : FetchEvent O
deriving DecidableEq, Repr

/-- Modelled from the spec: the transition function of
hooks::use_async_suspension (not among the provided sources). On
observation of a key equal to the previously observed key nothing happens;
on observation of a differing key exactly one fetch is issued and the
result becomes pending; an arriving response is accepted only if its key
equals the currently observed key and is discarded otherwise. Returns the
new state and the number of fetches the event issued. -/
def fetcher_step (s : FetcherState O) (e : FetchEvent O) :
    FetcherState O × Nat :=
  match e with
  | .observe k =>
    if s.key = some k then (s, 0)
    else ({ key := some k, result := .pending }, 1)
  | .arrive k o =>
    if s.key = some k then ({ s with result := .done k o }, 0)
    else (s, 0)

/-- The fetcher state before any key was observed. -/
def initial_fetcher : FetcherState O :=
  { key := none, result := .pending }

/-- Runs the fetcher over a list of events. -/
def run_fetcher : FetcherState O → List (FetchEvent O) → FetcherState O
  | s, [] => s
  | s, e :: rest => run_fetcher (fetcher_step s e).1 rest

/-- Total number of fetches issued while running over a list of events. -/
def fetches_issued : FetcherState O → List (FetchEvent O) → Nat
  | _, [] => 0
  | s, e :: rest => (fetcher_step s e).2 + fetches_issued (fetcher_step s e).1 rest

/-- The key of the last observe event in a list, with a default for lists
observing nothing. -/
def last_observed : List (FetchEvent O) → Option FetchKey → Option FetchKey
  | [], k0 => k0
  | .observe k :: rest, _ => last_observed rest (some k)
  | .arrive _ _ :: rest, k0 => last_observed rest k0

/-! ### Status polling -/

/-- Modelled from the spec: one cycle of the 60-second status poll set up
in App, main.rs lines 61-78. On a successful GET of /api/status the
shared timestamp becomes the server-reported last_updated; on a failed
cycle the previously held timestamp is left untouched. -/
def status_poll_step (prev : Option Int) (resp : Except Unit StatusResponse) :
    Option Int :=
  match resp with
  | .ok r => some r.last_updated
  | .error _ => prev

/-! ### Theorems -/

/-- Running the fetcher leaves its current key equal to the key of the
last observe event. -/
theorem run_fetcher_key {O : Type} (evs : List (FetchEvent O))
    (s : FetcherState O) :
    (run_fetcher s evs).key = last_observed evs s.key := by
  induction evs generalizing s with
  | nil => rfl
  | cons e rest ih =>
    cases e with
    | observe k =>
      by_cases h : s.key = some k
      · simp [run_fetcher, fetcher_step, h, last_observed, ih]
      · simp [run_fetcher, fetcher_step, h, last_observed, ih]
    | arrive k o =>
      by_cases h : s.key = some k
      · simp [run_fetcher, fetcher_step, h, last_observed, ih]
      · simp [run_fetcher, fetcher_step, h, last_observed, ih]

/-- The fetcher invariant: a completed result always carries the
currently observed key; one step preserves it. -/
theorem fetcher_step_result_key {O : Type} (s : FetcherState O)
    (e : FetchEvent O)
    (hs : ∀ k o, s.result = FetchResult.done k o → s.key = some k) :
    ∀ k o, (fetcher_step s e).1.result = FetchResult.done k o →
      (fetcher_step s e).1.key = some k := by
  cases e with
  | observe k =>
    by_cases h : s.key = some k
    · simpa [fetcher_step, h] using hs
    · simp [fetcher_step, h]
  | arrive k o =>
    by_cases h : s.key = some k
    · intro k1 o1 h1
      simp only [fetcher_step, h, if_pos] at h1 ⊢
      cases h1
      rfl
    · simpa [fetcher_step, h] using hs

/-- The fetcher invariant holds after any run that started in a state
satisfying it. -/
theorem run_fetcher_result_key {O : Type} (evs : List (FetchEvent O))
    (s : FetcherState O)
    (hs : ∀ k o, s.result = FetchResult.done k o → s.key = some k) :
    ∀ k o, (run_fetcher s evs).result = FetchResult.done k o →
      (run_fetcher s evs).key = some k := by
  induction evs generalizing s with
  | nil => exact hs
  | cons e rest ih =>
    exact ih (fetcher_step s e).1 (fetcher_step_result_key s e hs)

/-- C1: for every mounted view and every pair of fetches issued for keys
K1 then K2 with K1 ≠ K2, if the K1 response arrives after the K2 fetch was
issued, the rendered state never reflects the K1 outcome: whenever the
fetcher renders a completed outcome, that outcome belongs to the
most-recently-observed fetch key (mode, url, freshness timestamp). -/
theorem rendered_outcome_matches_latest_key {O : Type}
    (evs : List (FetchEvent O)) (k : FetchKey) (o : O)
    (h : (run_fetcher (initial_fetcher) evs).result = FetchResult.done k o) :
    last_observed evs none = some k := by
  have h1 := run_fetcher_result_key evs (initial_fetcher)
    (by intro k1 o1 h1; simp [initial_fetcher] at h1) k o h
  rw [run_fetcher_key] at h1
  simpa [initial_fetcher] using h1

/-- Witness for C1: a concrete interleaving observing key K1, then key K2
differing only in the freshness timestamp, then the K2 response arriving;
the rendered outcome belongs to K2, the most recently observed key. -/
theorem rendered_outcome_matches_latest_key_witness :
    (run_fetcher (initial_fetcher)
        [FetchEvent.observe (DetailType.Title, ⟨"https://example.com", "/api/titles"⟩, none),
         FetchEvent.observe (DetailType.Title, ⟨"https://example.com", "/api/titles"⟩, some 5),
         FetchEvent.arrive (DetailType.Title, ⟨"https://example.com", "/api/titles"⟩, some 5) (42 : Nat)]).result
      = FetchResult.done (DetailType.Title, ⟨"https://example.com", "/api/titles"⟩, some 5) 42 ∧
    last_observed
        [FetchEvent.observe (DetailType.Title, ⟨"https://example.com", "/api/titles"⟩, none),
         FetchEvent.observe (DetailType.Title, ⟨"https://example.com", "/api/titles"⟩, some 5),
         FetchEvent.arrive (DetailType.Title, ⟨"https://example.com", "/api/titles"⟩, some 5) (42 : Nat)]
        none
      = some (DetailType.Title, ⟨"https://example.com", "/api/titles"⟩, some 5) :=
  ⟨by decide,
   rendered_outcome_matches_latest_key _ _ 42 (by decide)⟩

/-- C4: with the previously observed key being (mode, url, ts), observing
the same mode and url with a changed freshness timestamp produces a
differing fetch key and exactly one new fetch; observing the unchanged
key issues no fetch. -/
theorem freshness_change_triggers_one_fetch {O : Type}
    (s : FetcherState O) (mode : DetailType) (url : Url) (ts ts1 : Option Int)
    (hkey : s.key = some (mode, url, ts)) :
    (ts1 ≠ ts →
      ((mode, url, ts1) : FetchKey) ≠ (mode, url, ts) ∧
      fetcher_step s (FetchEvent.observe (mode, url, ts1)) =
        ({ key := some (mode, url, ts1), result := FetchResult.pending }, 1)) ∧
    fetcher_step s (FetchEvent.observe (mode, url, ts)) = (s, 0) := by
  constructor
  · intro hne
    constructor
    · exact fun hc => hne (congrArg (fun p => p.2.2) hc)
    · have hne2 : ts ≠ ts1 := fun h => hne h.symm
      simp [fetcher_step, hkey, hne2]
  · simp [fetcher_step, hkey]

/-- Witness for C4: a concrete state whose key holds freshness timestamp
1; observing the same mode and url with timestamp 2 issues exactly one
fetch, observing the unchanged key issues none. -/
theorem freshness_change_triggers_one_fetch_witness :
    (({ key := some (DetailType.Title, ⟨"https://example.com", "/api/titles"⟩, some 1),
        result := FetchResult.pending } : FetcherState Nat).key
      = some (DetailType.Title, ⟨"https://example.com", "/api/titles"⟩, some 1)) ∧
    ((some 2 : Option Int) ≠ some 1) ∧
    fetcher_step
        ({ key := some (DetailType.Title, ⟨"https://example.com", "/api/titles"⟩, some 1),
           result := FetchResult.pending } : FetcherState Nat)
        (FetchEvent.observe (DetailType.Title, ⟨"https://example.com", "/api/titles"⟩, some 2)) =
      ({ key := some (DetailType.Title, ⟨"https://example.com", "/api/titles"⟩, some 2),
         result := FetchResult.pending }, 1) ∧
    fetcher_step
        ({ key := some (DetailType.Title, ⟨"https://example.com", "/api/titles"⟩, some 1),
           result := FetchResult.pending } : FetcherState Nat)
        (FetchEvent.observe (DetailType.Title, ⟨"https://example.com", "/api/titles"⟩, some 1)) =
      ({ key := some (DetailType.Title, ⟨"https://example.com", "/api/titles"⟩, some 1),
         result := FetchResult.pending }, 0) :=
  ⟨rfl, by decide,
   ((freshness_change_triggers_one_fetch _ DetailType.Title _ (some 1) (some 2) rfl).1
      (by decide)).2,
   (freshness_change_triggers_one_fetch _ DetailType.Title _ (some 1) (some 2) rfl).2⟩

/-- C3: for every origin, scope and detail kind, the resolved request URL
is the origin joined with exactly the matching one of the six fixed path
templates with the scope id substituted, and the visibility props hide
the video id column exactly for a video scope and the user id column
exactly for a user scope. -/
theorem scope_resolver_paths_and_flags (origin : Url) (scope : RouteScope)
    (mode : DetailType) :
    (resolve_scope origin scope mode).url =
      urlJoin origin
        (match scope, mode with
         | RouteScope.Global, DetailType.Title => "/api/titles"
         | RouteScope.Global, DetailType.Thumbnail => "/api/thumbnails"
         | RouteScope.ByVideo id, DetailType.Title => "/api/titles/video_id/" ++ id
         | RouteScope.ByVideo id, DetailType.Thumbnail => "/api/thumbnails/video_id/" ++ id
         | RouteScope.ByUser id, DetailType.Title => "/api/titles/user_id/" ++ id
         | RouteScope.ByUser id, DetailType.Thumbnail => "/api/thumbnails/user_id/" ++ id) ∧
    ((resolve_scope origin scope mode).hide_videoid = some () ↔
      ∃ id, scope = RouteScope.ByVideo id) ∧
    ((resolve_scope origin scope mode).hide_userid = some () ↔
      ∃ id, scope = RouteScope.ByUser id) := by
  cases scope <;> cases mode <;>
    simp [resolve_scope, HomePage, VideoPage, UserPage, urlJoin]

/-- C2 counterexample: an HTTP 500 response whose body decodes as an
empty record list does not produce the failure state; it renders an empty
table rather than the fixed error message, so a non-2xx status alone does
not yield Failure. -/
theorem non_2xx_not_failure_counterexample :
    fetch_details DetailType.Title
        (ReqwestResult.response 500 ⟨some [], some []⟩) =
      Except.ok (DetailList.Titles []) ∧
    render_details
        (fetch_details DetailType.Title
          (ReqwestResult.response 500 ⟨some [], some []⟩)) none none =
      RenderedView.titlesTable [] ∧
    render_details
        (fetch_details DetailType.Title
          (ReqwestResult.response 500 ⟨some [], some []⟩)) none none ≠
      RenderedView.errorMsg "Failed to fetch details from the API :/" :=
  ⟨rfl, rfl, by decide⟩

/-- Whether the response body decodes at the element type the mode
requests. -/
def body_decodes (mode : DetailType) (body : ResponseBody) : Bool :=
  match mode with
  | DetailType.Title => body.asTitles.isSome
  | DetailType.Thumbnail => body.asThumbnails.isSome

/-- C2 as amended: the fetch fails exactly on a transport error or a body
that fails to decode at the expected record-list shape (the HTTP status is
never examined), and every failure renders exactly the fixed error
message with no table rows. -/
theorem fetch_failure_exactly_transport_or_decode (mode : DetailType)
    (resp : ReqwestResult) (hv hu : Option Unit) :
    (fetch_details mode resp = Except.error () ↔
      (resp = ReqwestResult.transportError ∨
        ∃ st body, resp = ReqwestResult.response st body ∧
          body_decodes mode body = false)) ∧
    (fetch_details mode resp = Except.error () →
      render_details (fetch_details mode resp) hv hu =
        RenderedView.errorMsg "Failed to fetch details from the API :/") := by
  constructor
  · constructor
    · intro herr
      cases resp with
      | transportError => exact Or.inl rfl
      | response st body =>
        refine Or.inr ⟨st, body, rfl, ?_⟩
        cases mode with
        | Title =>
          cases h : body.asTitles with
          | none => simp [body_decodes, h]
          | some l => simp [fetch_details, h] at herr
        | Thumbnail =>
          cases h : body.asThumbnails with
          | none => simp [body_decodes, h]
          | some l => simp [fetch_details, h] at herr
    · rintro (rfl | ⟨st, body, rfl, hdec⟩)
      · rfl
      · cases mode with
        | Title =>
          cases h : body.asTitles with
          | none => simp [fetch_details, h]
          | some l => simp [body_decodes, h] at hdec
        | Thumbnail =>
          cases h : body.asThumbnails with
          | none => simp [fetch_details, h]
          | some l => simp [body_decodes, h] at hdec
  · intro h
    rw [h]
    rfl

/-- Witness for C2 as amended: an HTTP 500 response whose body decodes at
neither record shape yields the failure state, rendered as the fixed
error message. -/
theorem fetch_failure_witness :
    fetch_details DetailType.Title (ReqwestResult.response 500 ⟨none, none⟩) =
      Except.error () ∧
    render_details
        (fetch_details DetailType.Title (ReqwestResult.response 500 ⟨none, none⟩))
        none none =
      RenderedView.errorMsg "Failed to fetch details from the API :/" := by
  have h := fetch_failure_exactly_transport_or_decode DetailType.Title
    (ReqwestResult.response 500 ⟨none, none⟩) none none
  have herr : fetch_details DetailType.Title
      (ReqwestResult.response 500 ⟨none, none⟩) = Except.error () :=
    h.1.mpr (Or.inr ⟨500, ⟨none, none⟩, rfl, rfl⟩)
  exact ⟨herr, h.2 herr⟩

/-- C5: the timestamp-or-original cell of a thumbnail row shows the
numeric timestamp whenever one is present, with no badge even when
original is set; with the timestamp absent it shows the recycle badge
when original is set and is blank otherwise; and a timestamp of exactly
zero renders as the string 0, not as absence. -/
theorem thumbnail_timestamp_cell_spec (t : ApiThumbnail) :
    (∀ ts, t.timestamp = some ts →
      thumbnail_timestamp_cell t = [HtmlNode.text (dyadicDecimalString ts)] ∧
      ∀ s c, HtmlNode.span s c ∉ thumbnail_timestamp_cell t) ∧
    (t.timestamp = none →
      thumbnail_timestamp_cell t =
        if t.original then
          [HtmlNode.span "This is the original video thumbnail" "♻️"]
        else []) ∧
    dyadicDecimalString 0 = "0" := by
  refine ⟨?_, ?_, by decide⟩
  · intro ts hts
    simp [thumbnail_timestamp_cell, hts]
  · intro hts
    simp [thumbnail_timestamp_cell, hts, original_indicator]

/-- Witness for C5: a thumbnail with timestamp exactly zero and original
set renders the cell as the text 0, with no recycle badge. -/
theorem thumbnail_timestamp_cell_witness :
    (({ uuid := "a", video_id := "v", user_id := "u", time_submitted := 0,
        timestamp := some 0, votes := 0, original := true, locked := false,
        shadow_hidden := false } : ApiThumbnail).timestamp = some 0) ∧
    thumbnail_timestamp_cell
        { uuid := "a", video_id := "v", user_id := "u", time_submitted := 0,
          timestamp := some 0, votes := 0, original := true, locked := false,
          shadow_hidden := false } =
      [HtmlNode.text (dyadicDecimalString 0)] ∧
    dyadicDecimalString 0 = "0" :=
  ⟨rfl,
   ((thumbnail_timestamp_cell_spec
      { uuid := "a", video_id := "v", user_id := "u", time_submitted := 0,
        timestamp := some 0, votes := 0, original := true, locked := false,
        shadow_hidden := false }).1 0 rfl).1,
   (thumbnail_timestamp_cell_spec
      { uuid := "a", video_id := "v", user_id := "u", time_submitted := 0,
        timestamp := some 0, votes := 0, original := true, locked := false,
        shadow_hidden := false }).2.2⟩

/-- C6: the score cell of a title row starts with the raw score text and
carries the too-low badge exactly when score < 0, the unverified badge
exactly when unverified, the locked badge exactly when locked and the
shadow-hidden badge exactly when shadow_hidden; the badges are
independent and never alter the leading numeric text; a title with score
-1 and all flags clear shows -1 with the too-low badge only. -/
theorem title_score_badges (t : ApiTitle) :
    (title_score t).head? = some (HtmlNode.text (toString t.score)) ∧
    (HtmlNode.span "This title\x27s score is too low to be displayed" "❌"
        ∈ title_score t ↔ t.score < 0) ∧
    (HtmlNode.span "This title was submitted by an unverified user" "❓"
        ∈ title_score t ↔ t.unverified = true) ∧
    (HtmlNode.span "This title was locked by a VIP" "🔒"
        ∈ title_score t ↔ t.locked = true) ∧
    (HtmlNode.span "This title is shadowhidden" "🚫"
        ∈ title_score t ↔ t.shadow_hidden = true) ∧
    (t.score = -1 ∧ t.unverified = false ∧ t.locked = false ∧
        t.shadow_hidden = false →
      title_score t =
        [HtmlNode.text "-1",
         HtmlNode.span "This title\x27s score is too low to be displayed" "❌"]) := by
  rcases t with ⟨uuid, vid, uid, title, ts, score, votes, orig, unv, lck, sh⟩
  by_cases hs : score < 0 <;>
    cases unv <;> cases lck <;> cases sh <;>
      simp_all [title_score] <;> (intro h1; decide)

/-- Witness for C6: the concrete title record with score -1 and all flags
clear renders -1 followed by the too-low badge only. -/
theorem title_score_badges_witness :
    title_score
        { uuid := "abc", video_id := "v1", user_id := "u1", title := "Foo",
          time_submitted := 0, score := -1, votes := 5, original := false,
          unverified := false, locked := false, shadow_hidden := false } =
      [HtmlNode.text "-1",
       HtmlNode.span "This title\x27s score is too low to be displayed" "❌"] :=
  (title_score_badges
    { uuid := "abc", video_id := "v1", user_id := "u1", title := "Foo",
      time_submitted := 0, score := -1, votes := 5, original := false,
      unverified := false, locked := false, shadow_hidden := false }).2.2.2.2.2
    ⟨rfl, rfl, rfl, rfl⟩

/-- C7 counterexample: a record whose time_submitted lies beyond the
representable calendar range (the year would exceed the chrono maximum)
renders the raw integer in the submitted cell, not a formatted date, so
the formatted rendering does not hold for every record. -/
theorem submitted_cell_not_always_formatted :
    from_timestamp_millis (10000000000000000) = none ∧
    (title_row none none
        { uuid := "u", video_id := "v", user_id := "w", title := "T",
          time_submitted := 10000000000000000, score := 0, votes := 0,
          original := false, unverified := false, locked := false,
          shadow_hidden := false }).head? =
      some [HtmlNode.text "10000000000000000"] := by
  constructor
  · decide
  · rfl

/-- C7 as amended: for every record whose time_submitted converts to a
calendar date-time, the submitted cell of its row (title or thumbnail)
renders that date-time as YYYY-MM-DD HH:MM:SS; records outside the
representable range fall back to the raw integer. -/
theorem submitted_cell_formats_in_range (hv hu : Option Unit)
    (t : ApiTitle) (th : ApiThumbnail) (dt dt1 : NaiveDT) :
    (title_row hv hu t).head? =
      some [HtmlNode.text (submitted_cell t.time_submitted)] ∧
    (thumbnail_row hv hu th).head? =
      some [HtmlNode.text (submitted_cell th.time_submitted)] ∧
    (from_timestamp_millis t.time_submitted = some dt →
      submitted_cell t.time_submitted = formatDT dt) ∧
    (from_timestamp_millis th.time_submitted = some dt1 →
      submitted_cell th.time_submitted = formatDT dt1) := by
  refine ⟨rfl, rfl, ?_, ?_⟩
  · intro h
    unfold submitted_cell
    rw [h]
  · intro h
    unfold submitted_cell
    rw [h]

/-- Witness for C7 as amended: the in-range epoch value 1700000000000
renders as 2023-11-14 22:13:20. -/
theorem submitted_cell_formats_in_range_witness :
    from_timestamp_millis 1700000000000 =
      some ⟨2023, 11, 14, 22, 13, 20⟩ ∧
    submitted_cell 1700000000000 = formatDT ⟨2023, 11, 14, 22, 13, 20⟩ ∧
    formatDT ⟨2023, 11, 14, 22, 13, 20⟩ = "2023-11-14 22:13:20" :=
  ⟨by decide,
   (submitted_cell_formats_in_range none none
      { uuid := "u", video_id := "v", user_id := "w", title := "T",
        time_submitted := 1700000000000, score := 0, votes := 0,
        original := false, unverified := false, locked := false,
        shadow_hidden := false }
      { uuid := "u", video_id := "v", user_id := "w",
        time_submitted := 1700000000000, timestamp := none, votes := 0,
        original := false, locked := false, shadow_hidden := false }
      ⟨2023, 11, 14, 22, 13, 20⟩ ⟨2023, 11, 14, 22, 13, 20⟩).2.2.1
     (by decide),
   by decide⟩

/-- C9: whenever time_submitted falls outside the representable calendar
range, the submitted cell of the row (title or thumbnail) renders the raw
integer as its decimal string; the row builders are total functions, so
rendering succeeds on every integer time_submitted. -/
theorem submitted_cell_raw_when_out_of_range (hv hu : Option Unit)
    (t : ApiTitle) (th : ApiThumbnail) :
    (from_timestamp_millis t.time_submitted = none →
      (title_row hv hu t).head? =
        some [HtmlNode.text (toString t.time_submitted)]) ∧
    (from_timestamp_millis th.time_submitted = none →
      (thumbnail_row hv hu th).head? =
        some [HtmlNode.text (toString th.time_submitted)]) := by
  constructor
  · intro h
    have hc : submitted_cell t.time_submitted = toString t.time_submitted := by
      unfold submitted_cell
      rw [h]
    simp [title_row, hc]
  · intro h
    have hc : submitted_cell th.time_submitted = toString th.time_submitted := by
      unfold submitted_cell
      rw [h]
    simp [thumbnail_row, hc]

/-- Witness for C9: the out-of-range epoch value 10 to the 17 renders as
its decimal string in a concrete title row. -/
theorem submitted_cell_raw_when_out_of_range_witness :
    from_timestamp_millis (100000000000000000) = none ∧
    (title_row none none
        { uuid := "u", video_id := "v", user_id := "w", title := "T",
          time_submitted := 100000000000000000, score := 0, votes := 0,
          original := false, unverified := false, locked := false,
          shadow_hidden := false }).head? =
      some [HtmlNode.text (toString (100000000000000000 : Int))] :=
  ⟨by decide,
   (submitted_cell_raw_when_out_of_range none none
      { uuid := "u", video_id := "v", user_id := "w", title := "T",
        time_submitted := 100000000000000000, score := 0, votes := 0,
        original := false, unverified := false, locked := false,
        shadow_hidden := false }
      { uuid := "u", video_id := "v", user_id := "w",
        time_submitted := 0, timestamp := none, votes := 0,
        original := false, locked := false, shadow_hidden := false }).1
     (by decide)⟩

/-- C10: pressing Enter in the UUID search box hides the searchbar and
navigates to NotFound; the entered value is never read (any two values
give the same outcome), and any route the callback pushes is NotFound,
never a video or user scoped route. -/
theorem uuid_search_always_notfound (key v1 v2 : String) (visible : Bool) :
    (key = "Enter" →
      uuid_search ⟨key, v1⟩ visible = (false, some Route.NotFound)) ∧
    uuid_search ⟨key, v1⟩ visible = uuid_search ⟨key, v2⟩ visible ∧
    (∀ r, (uuid_search ⟨key, v1⟩ visible).2 = some r → r = Route.NotFound) := by
  refine ⟨?_, ?_, ?_⟩
  · intro h
    simp [uuid_search, h]
  · simp [uuid_search]
  · intro r hr
    by_cases h : key = "Enter"
    · simp [uuid_search, h] at hr
      exact hr.symm
    · simp [uuid_search, h] at hr

/-- Witness for C10: pressing Enter with a syntactically valid UUID in
the box still navigates to NotFound with the searchbar hidden. -/
theorem uuid_search_always_notfound_witness :
    uuid_search ⟨"Enter", "d8a6b331-0b9c-4f8e-9e70-4a2f0a8d3c5b"⟩ true =
      (false, some Route.NotFound) :=
  (uuid_search_always_notfound "Enter"
    "d8a6b331-0b9c-4f8e-9e70-4a2f0a8d3c5b" "x" true).1 rfl

/-- C8: a successful status poll replaces the shared timestamp with the
server-reported value, a failed poll leaves the previously held timestamp
untouched, and the AppContext derivation reads only the data field of the
poll state, so a poll error never reaches the rendered context. -/
theorem status_poll_updates_only_on_success (prev : Option Int)
    (r : StatusResponse) (e : Unit) (d : Option StatusResponse) :
    status_poll_step prev (Except.ok r) = some r.last_updated ∧
    status_poll_step prev (Except.error e) = prev ∧
    app_context_of (some r) = ⟨some r.last_updated⟩ ∧
    app_context_of none = ⟨none⟩ ∧
    (app_context_of d).last_updated = d.map (fun x => x.last_updated) :=
  ⟨rfl, rfl, rfl, rfl, rfl⟩
